import Mathlib

/-!
Verification development for the `fast_api_code_sage` backend
(`src/main.py`, `src/groq_api.py`).

The development shallowly embeds the request-independent logic of the
service:

* the PR-URL parser `extract_pr_info` (main.py, lines 69-90),
* the session-token resolution branch of the `/api/review-pr` handler
  (main.py, lines 224-242),
* the reply handling of `groq_api.review_pull_request` — Markdown fence
  stripping and JSON decoding (groq_api.py, lines 62-68) — and the
  follow-up normalization in the endpoint (main.py, lines 272-289).

Python dictionaries are embedded as association lists with last-write-wins
assignment; Python JSON values as the inductive `PyVal`; machine behaviour
that raises an exception is embedded as an explicit error value.
-/

/-- A Python value produced by `json.loads` (plus `None`/`bool`
distinctions). JSON numbers without fraction or exponent become Python
`int` (`PyVal.int`); numbers with a fraction or exponent become Python
`float`, embedded as the exact decimal `m · 10^e` (IEEE-754 rounding is
not modelled; no claim depends on float precision). Objects are embedded
as association lists built with last-write-wins assignment, so their keys
are distinct and in first-insertion order, matching `dict`. -/
inductive PyVal where
  | null
  | bool (b : Bool)
  | int (n : Int)
  | float (m : Int) (e : Int)
  | str (s : String)
  | arr (elts : List PyVal)
  | obj (entries : List (String × PyVal))
deriving Repr

/-- An HTTP error response: status code and the `detail` string, as
produced by FastAPI's `HTTPException` (or by the framework's generic
`"Internal Server Error"` body for an unhandled exception). -/
structure HTTPError where
  status : Nat
  detail : String
deriving Repr, DecidableEq

/-- ASCII whitespace stripped by Python's `str.strip()` (the Unicode
whitespace Python also strips does not occur in any input of interest). -/
def pyIsSpace (c : Char) : Bool :=
  c = ' ' || c = '\t' || c = '\n' || c = '\x0d' || c = '\x0b' || c = '\x0c'

/-- Python `str.strip()`: drop leading and trailing whitespace. -/
def pyStrip (s : String) : String :=
  ⟨((s.toList.dropWhile pyIsSpace).reverse.dropWhile pyIsSpace).reverse⟩

/-- One pass of `re.sub(r"^```json|```$", "", text, flags=re.MULTILINE)`
from groq_api.py line 63: scanning left to right, remove `` ```json ``
occurring at the start of a line, and remove ` ``` ` occurring at the end
of a line (immediately before `'\n'` or at the end of the string). The
Boolean argument records whether the current position is at a line start
(start of string or just after `'\n'`); after a removed match the next
position is not a line start, since the matched text ends in a non-newline
character. -/
def fenceSubGo : Nat → Bool → List Char → List Char
  | 0, _, cs => cs
  | fuel + 1, atLineStart, cs =>
    if atLineStart ∧ cs.take 7 = "```json".toList then
      fenceSubGo fuel false (cs.drop 7)
    else if cs.take 3 = "```".toList ∧ ((cs.drop 3) = [] ∨ (cs.drop 3).head? = some '\n') then
      fenceSubGo fuel false (cs.drop 3)
    else
      match cs with
      | [] => []
      | c :: rest => c :: fenceSubGo fuel (c = '\n') rest

/-- The fence substitution on a whole string: every step of `fenceSubGo`
consumes at least one character, so `cs.length` units of fuel always
complete the scan. -/
def fenceSub (cs : List Char) : List Char :=
  fenceSubGo cs.length true cs

/-- The reply normalization of groq_api.py line 63:
`re.sub(r"^```json|```$", "", raw.strip(), flags=re.MULTILINE).strip()`. -/
def stripFences (raw : String) : String :=
  pyStrip ⟨fenceSub (pyStrip raw).toList⟩

/-- JSON whitespace skipped by `json.loads` between tokens. -/
def skipWs (cs : List Char) : List Char :=
  cs.dropWhile (fun c => c = ' ' || c = '\t' || c = '\n' || c = '\x0d')

/-- Value of a hexadecimal digit, if the character is one. -/
def hexVal (c : Char) : Option Nat :=
  if '0' ≤ c ∧ c ≤ '9' then some (c.toNat - '0'.toNat)
  else if 'a' ≤ c ∧ c ≤ 'f' then some (c.toNat - 'a'.toNat + 10)
  else if 'A' ≤ c ∧ c ≤ 'F' then some (c.toNat - 'A'.toNat + 10)
  else none

/-- Decode one backslash escape character of a JSON string. -/
def unescape (c : Char) : Option Char :=
  match c with
  | '"' => some '"'
  | '\\' => some '\\'
  | '/' => some '/'
  | 'b' => some '\x08'
  | 'f' => some '\x0c'
  | 'n' => some '\n'
  | 'r' => some '\x0d'
  | 't' => some '\t'
  | _ => none

/-- Body of a JSON string after the opening quote: returns the decoded
characters and the input remaining after the closing quote. Python's
strict mode rejects raw control characters below U+0020. A `\uXXXX`
escape outside the valid scalar range decodes through `Char.ofNat`'s
default; no claim exercises that corner. -/
def parseStrChars (cs : List Char) : Option (List Char × List Char) :=
  match cs with
  | [] => none
  | '"' :: rest => some ([], rest)
  | '\\' :: esc =>
    match esc with
    | 'u' :: h1 :: h2 :: h3 :: h4 :: rest => do
      let a ← hexVal h1
      let b ← hexVal h2
      let c ← hexVal h3
      let d ← hexVal h4
      let (tail, rem) ← parseStrChars rest
      some (Char.ofNat (((a * 16 + b) * 16 + c) * 16 + d) :: tail, rem)
    | e :: rest => do
      let c ← unescape e
      let (tail, rem) ← parseStrChars rest
      some (c :: tail, rem)
    | [] => none
  | c :: rest =>
    if c.toNat < 32 then none
    else do
      let (tail, rem) ← parseStrChars rest
      some (c :: tail, rem)

/-- Digits of a list interpreted base 10 (as `int()` does on the capture
of a `\d+` group, and as the JSON number grammar does). -/
def digitsToNat (ds : List Char) : Nat :=
  ds.foldl (fun acc c => acc * 10 + (c.toNat - '0'.toNat)) 0

/-- JSON number per the RFC grammar that `json.loads` implements:
`-? (0 | [1-9][0-9]*) (. [0-9]+)? ([eE][+-]?[0-9]+)?`. Without fraction
and exponent the result is a Python `int`; otherwise a `float` holding
the exact decimal. (`json.loads`'s non-standard `NaN`/`Infinity`
constants are not modelled.) -/
def parseNum (cs : List Char) : Option (PyVal × List Char) :=
  let (neg, cs1) := match cs with
    | '-' :: rest => (true, rest)
    | _ => (false, cs)
  let intDigits := cs1.takeWhile Char.isDigit
  let afterInt := cs1.dropWhile Char.isDigit
  if intDigits = [] then none
  else if intDigits.length > 1 ∧ intDigits.head? = some '0' then none
  else
    let (fracDigits, afterFrac) := match afterInt with
      | '.' :: rest =>
        (rest.takeWhile Char.isDigit, rest.dropWhile Char.isDigit)
      | _ => ([], afterInt)
    if afterInt ≠ [] ∧ afterInt.head? = some '.' ∧ fracDigits = [] then none
    else
      let hasFrac := afterInt.head? = some '.'
      let (expPart, afterExp) := match afterFrac with
        | 'e' :: rest => (some rest, rest)
        | 'E' :: rest => (some rest, rest)
        | _ => (none, afterFrac)
      match expPart with
      | none =>
        let mant : Int :=
          (digitsToNat (intDigits ++ fracDigits) : Int) * (if neg then -1 else 1)
        if hasFrac then
          some (.float mant (-(fracDigits.length : Int)), afterExp)
        else
          some (.int mant, afterExp)
      | some rest =>
        let (expNeg, rest1) := match rest with
          | '+' :: r => (false, r)
          | '-' :: r => (true, r)
          | _ => (false, rest)
        let expDigits := rest1.takeWhile Char.isDigit
        let afterE := rest1.dropWhile Char.isDigit
        if expDigits = [] then none
        else
          let mant : Int :=
            (digitsToNat (intDigits ++ fracDigits) : Int) * (if neg then -1 else 1)
          let expVal : Int :=
            (digitsToNat expDigits : Int) * (if expNeg then -1 else 1)
          some (.float mant (expVal - (fracDigits.length : Int)), afterE)

/-- Python `dict` assignment `d[k] = v` on an association list with
distinct keys: overwrite in place if the key exists, else append. -/
def dictSet (entries : List (String × PyVal)) (k : String) (v : PyVal) :
    List (String × PyVal) :=
  match entries with
  | [] => [(k, v)]
  | (k0, v0) :: rest =>
    if k0 = k then (k0, v) :: rest else (k0, v0) :: dictSet rest k v

mutual

/-- One JSON value, fuelled recursive descent faithful to `json.loads`
(leading whitespace allowed before every token). -/
def parseVal (fuel : Nat) (cs : List Char) : Option (PyVal × List Char) :=
  match fuel with
  | 0 => none
  | fuel + 1 =>
    match skipWs cs with
    | 'n' :: 'u' :: 'l' :: 'l' :: rest => some (.null, rest)
    | 't' :: 'r' :: 'u' :: 'e' :: rest => some (.bool true, rest)
    | 'f' :: 'a' :: 'l' :: 's' :: 'e' :: rest => some (.bool false, rest)
    | '"' :: rest => do
      let (chars, rem) ← parseStrChars rest
      some (.str ⟨chars⟩, rem)
    | '[' :: rest =>
      (match skipWs rest with
       | ']' :: rem => some (.arr [], rem)
       | other => do
         let (elts, rem) ← parseElems fuel other
         some (.arr elts, rem))
    | '\x7b' :: rest =>
      (match skipWs rest with
       | '\x7d' :: rem => some (.obj [], rem)
       | other => do
         let (entries, rem) ← parseMembers fuel other []
         some (.obj entries, rem))
    | other => parseNum other

/-- Comma-separated array elements up to the closing bracket. -/
def parseElems (fuel : Nat) (cs : List Char) : Option (List PyVal × List Char) :=
  match fuel with
  | 0 => none
  | fuel + 1 => do
    let (v, rem) ← parseVal fuel cs
    match skipWs rem with
    | ',' :: rest => do
      let (vs, rem2) ← parseElems fuel rest
      some (v :: vs, rem2)
    | ']' :: rest => some ([v], rest)
    | _ => none

/-- Comma-separated object members up to the closing brace, accumulated
by `dict` assignment so that a repeated key keeps its last value, as
`json.loads` does. -/
def parseMembers (fuel : Nat) (cs : List Char) (acc : List (String × PyVal)) :
    Option (List (String × PyVal) × List Char) :=
  match fuel with
  | 0 => none
  | fuel + 1 =>
    match skipWs cs with
    | '"' :: rest => do
      let (kchars, rem) ← parseStrChars rest
      match skipWs rem with
      | ':' :: rest2 => do
        let (v, rem2) ← parseVal fuel rest2
        let acc2 := dictSet acc ⟨kchars⟩ v
        match skipWs rem2 with
        | ',' :: rest3 => parseMembers fuel rest3 acc2
        | '\x7d' :: rest3 => some (acc2, rest3)
        | _ => none
      | _ => none
    | _ => none

end

/-- `json.loads`: parse one JSON document, requiring only whitespace
after it. The fuel bound exceeds any possible nesting plus element count
of the input. -/
def jsonLoads (s : String) : Option PyVal :=
  match parseVal (2 * s.length + 2) s.toList with
  | some (v, rest) => if skipWs rest = [] then some v else none
  | none => none

/-- Python `str.startswith`, embedded on character lists. -/
def pyStartsWith (s p : String) : Bool :=
  p.toList.isPrefixOf s.toList

/-- First-match lookup in an association list (equal to `dict` lookup on
lists whose keys are distinct, as all object lists in this model are). -/
def pyLookup (entries : List (String × PyVal)) (k : String) : Option PyVal :=
  match entries with
  | [] => none
  | (k0, v0) :: rest => if k0 = k then some v0 else pyLookup rest k

/-- Python `dict.get(k, default)`: the stored value when the key is
present, the default otherwise. -/
def pyGetD (entries : List (String × PyVal)) (k : String) (d : PyVal) : PyVal :=
  match pyLookup entries k with
  | some v => v
  | none => d

/-- Reply handling of `groq_api.review_pull_request` (groq_api.py, lines
62-68), taking the model's raw reply text as input: strip Markdown code
fences, parse as JSON, and return the parsed value; when parsing raises,
return the string `"Error: " + str(e)`. The Python exception text
`str(e)` is abstracted to the fixed string `"invalid JSON reply"` — no
behaviour of the program depends on the text after the `"Error: "`
marker. (The same `except` clause also catches transport failures of the
chat-completion call itself; those are outside this input-deterministic
embedding.) -/
def review_pull_request_onReply (raw : String) : PyVal :=
  match jsonLoads (stripFences raw) with
  | some v => v
  | none => .str ("Error: " ++ "invalid JSON reply")

/-- The response dictionary built by the endpoint (main.py, lines
282-287): `summary` from `review` (default `"Review completed"`),
`issues` from `errors` (default `[]`), `suggestions` a fresh empty list,
`score` from `review_score` (default the Python float literal `0.0`). -/
def formatResult (review_result : List (String × PyVal)) : List (String × PyVal) :=
  [("summary", pyGetD review_result "review" (.str "Review completed")),
   ("issues", pyGetD review_result "errors" (.arr [])),
   ("suggestions", .arr []),
   ("score", pyGetD review_result "review_score" (.float 0 0))]

/-- Post-review step of the `/api/review-pr` handler (main.py, lines
274-289), applied to the value returned by
`groq_api.review_pull_request`: a string beginning with `"Error:"` is
re-raised as HTTP 500 `"Groq API error: ..."`; a dictionary gets
`pr_number` assigned into it and is reformatted through `formatResult`;
any other value (including a string not beginning with `"Error:"`)
makes the item assignment `review_result['pr_number'] = pr_number` raise
`TypeError`, which FastAPI surfaces as a generic 500 response. -/
def handleGroqResult (review_result : PyVal) (pr_number : Int) :
    Except HTTPError (List (String × PyVal)) :=
  match review_result with
  | .str s =>
    if pyStartsWith s "Error:" then .error ⟨500, "Groq API error: " ++ s⟩
    else .error ⟨500, "Internal Server Error"⟩
  | .obj entries => .ok (formatResult (dictSet entries "pr_number" (.int pr_number)))
  | _ => .error ⟨500, "Internal Server Error"⟩

/-- Composition of the model-reply processing and the endpoint's
formatting: what `POST /api/review-pr` does with a given raw model reply
once the diff has been fetched and the PR number parsed. -/
def reviewEndpointStep (raw : String) (pr_number : Int) :
    Except HTTPError (List (String × PyVal)) :=
  handleGroqResult (review_pull_request_onReply raw) pr_number

/-- Regex piece `([^/]+)/`: the greedy non-empty run of non-slash
characters, followed by a consumed `'/'`. Fails when the run is empty or
no slash follows it. -/
def splitSlash (cs : List Char) : Option (List Char × List Char) :=
  let seg := cs.takeWhile (fun c => c ≠ '/')
  let rest := cs.dropWhile (fun c => c ≠ '/')
  if seg = [] then none
  else
    match rest with
    | '/' :: r => some (seg, r)
    | _ => none

/-- Consume an exact literal from the front of the input. -/
def dropLit (lit : List Char) (cs : List Char) : Option (List Char) :=
  if cs.take lit.length = lit then some (cs.drop lit.length) else none

/-- Regex piece `(\d+)` with nothing after it: the greedy non-empty run
of digits, read base 10; trailing characters are ignored because the
source patterns are not anchored at the end. -/
def takeDigits (cs : List Char) : Option Nat :=
  let ds := cs.takeWhile Char.isDigit
  if ds = [] then none else some (digitsToNat ds)

/-- The literal `pull/` of the URL patterns. -/
def litPull : List Char := "pull/".toList

/-- The literal `github.com/` of the URL patterns. -/
def litGithub : List Char := "github.com/".toList

/-- The literal `https://` alternative of pattern 2. -/
def litHttps : List Char := "https://".toList

/-- The literal `http://` alternative of pattern 2. -/
def litHttp : List Char := "http://".toList

/-- The literal `www.github.com/` of pattern 3. -/
def litWww : List Char := "www.github.com/".toList

/-- Common tail `([^/]+)/([^/]+)/pull/(\d+)` of the three URL patterns of
`extract_pr_info` (main.py, lines 75-79). Each `[^/]+` is greedy and
cannot cross a slash, so the regex match is deterministic and equals this
sequential reading. -/
def matchCore (cs : List Char) : Option (String × String × Nat) :=
  match splitSlash cs with
  | none => none
  | some (owner, r1) =>
    match splitSlash r1 with
    | none => none
    | some (repo, r2) =>
      match dropLit litPull r2 with
      | none => none
      | some r3 =>
        match takeDigits r3 with
        | none => none
        | some n => some (⟨owner⟩, ⟨repo⟩, n)

/-- Pattern 1, `re.match(r"github\.com/([^/]+)/([^/]+)/pull/(\d+)", s)`:
anchored at the start of the string. -/
def matchPat1 (cs : List Char) : Option (String × String × Nat) :=
  match dropLit litGithub cs with
  | none => none
  | some r => matchCore r

/-- Pattern 2,
`re.match(r"https?://github\.com/([^/]+)/([^/]+)/pull/(\d+)", s)`:
`https?` deterministically takes the `'s'` exactly when it is present,
since `://` must follow. -/
def matchPat2 (cs : List Char) : Option (String × String × Nat) :=
  match (match dropLit litHttps cs with
         | some r => some r
         | none => dropLit litHttp cs) with
  | none => none
  | some r0 =>
    match dropLit litGithub r0 with
    | none => none
    | some r => matchCore r

/-- Pattern 3,
`re.match(r"www\.github\.com/([^/]+)/([^/]+)/pull/(\d+)", s)`. -/
def matchPat3 (cs : List Char) : Option (String × String × Nat) :=
  match dropLit litWww cs with
  | none => none
  | some r => matchCore r

/-- The cleaning step of `extract_pr_info` (main.py, line 72):
`pr_url.strip().lstrip('@')` — trim surrounding whitespace, then remove
every leading `'@'` character. -/
def cleanUrl (pr_url : String) : List Char :=
  (pyStrip pr_url).toList.dropWhile (fun c => c = '@')

/-- The three patterns tried in order on the cleaned URL; the first that
matches wins (the `for pattern in patterns` loop of main.py, lines
81-84). -/
def matchFirst (cs : List Char) : Option (String × String × Nat) :=
  match matchPat1 cs with
  | some t => some t
  | none =>
    match matchPat2 cs with
    | some t => some t
    | none => matchPat3 cs

/-- `extract_pr_info` (main.py, lines 69-90): clean the URL, try the
three patterns in order, and return `(owner, repo, int(number))`; when
none matches, raise `HTTPException(400)` whose detail embeds the original
un-cleaned argument via the f-string on line 89. -/
def extract_pr_info (pr_url : String) : Except String (String × String × Nat) :=
  match matchFirst (cleanUrl pr_url) with
  | some t => .ok t
  | none =>
    .error ("Invalid GitHub PR URL. Expected format: https://github.com/owner/repo/pull/123. Got: " ++ pr_url)

/-- URL-parsing step of the `/api/review-pr` handler (main.py, lines
218-221): the `HTTPException` raised by `extract_pr_info` is caught and
replaced by a plain 400 with the fixed detail `"Invalid GitHub PR URL"`,
discarding the message that contained the input. -/
def endpointParse (pr_url : String) : Except HTTPError (String × String × Nat) :=
  match extract_pr_info pr_url with
  | .ok t => .ok t
  | .error _ => .error ⟨400, "Invalid GitHub PR URL"⟩

/-- Outcome of the authentication branch of the `/api/review-pr` handler
(main.py, lines 224-242): either a 401 (no token supplied, or an unknown
session handle) or the upstream GitHub token to use. -/
inductive AuthResult where
  | unauthenticated
  | sessionNotFound
  | token (t : String)
deriving Repr, DecidableEq

/-- Session-token resolution of the `/api/review-pr` handler (main.py,
lines 224-242). `github_token` is the optional request field; a missing
or empty string is falsy in Python and yields 401 `"GitHub authentication
required."`. A token beginning with `"session_"` is looked up in the
process-wide `sessions` dictionary (embedded as an association list from
session id to stored `access_token`): a hit resolves to the stored
token, a miss yields 401 `"Invalid session."`. Any other token is used
verbatim. -/
def resolveToken (sessions : List (String × String)) (github_token : Option String) :
    AuthResult :=
  match github_token with
  | none => .unauthenticated
  | some t =>
    if t = "" then .unauthenticated
    else if pyStartsWith t "session_" then
      match sessions.lookup t with
      | some a => .token a
      | none => .sessionNotFound
    else .token t

/-- Whether `needle` occurs as a contiguous substring of `hay`, by
checking a prefix at every suffix position. -/
def listIsInfixOf (needle hay : List Char) : Bool :=
  match hay with
  | [] => needle.isEmpty
  | _ :: rest => needle.isPrefixOf hay || listIsInfixOf needle rest

/-- Substring containment on strings, used to state what an error detail
does or does not mention. -/
def strContainsSub (hay needle : String) : Bool :=
  listIsInfixOf needle.toList hay.toList

/-- Cleaning step as the specification words it: trim surrounding
whitespace, then strip exactly ONE leading `'@'` character if present.
Modelled from the spec for comparison with `cleanUrl`, which embeds the
source's `lstrip('@')`. -/
def cleanUrlOneAt (pr_url : String) : List Char :=
  match (pyStrip pr_url).toList with
  | '@' :: rest => rest
  | other => other

/-- `extract_pr_info` as it would behave under the spec's one-`'@'`
cleaning rule; used only to exhibit where the source differs. -/
def extract_pr_info_oneAt (pr_url : String) : Except String (String × String × Nat) :=
  match matchFirst (cleanUrlOneAt pr_url) with
  | some t => .ok t
  | none =>
    .error ("Invalid GitHub PR URL. Expected format: https://github.com/owner/repo/pull/123. Got: " ++ pr_url)

/-- A `splitSlash` success produces the non-empty slash-free run the
regex piece `([^/]+)/` captures. -/
theorem splitSlash_props (cs seg rest : List Char)
    (h : splitSlash cs = some (seg, rest)) :
    seg ≠ [] ∧ ∀ c ∈ seg, c ≠ '/' := by
  simp only [splitSlash] at h
  split at h
  · exact absurd h (by simp)
  · split at h
    · rename_i hne _ _ _
      simp only [Option.some.injEq, Prod.mk.injEq] at h
      obtain ⟨hseg, -⟩ := h
      subst hseg
      refine ⟨hne, ?_⟩
      intro c hc
      have := List.mem_takeWhile_imp hc
      simpa using this
    · exact absurd h (by simp)

/-- A `matchCore` success captures owner and repo as non-empty slash-free
segments. -/
theorem matchCore_props (cs : List Char) (o r : String) (n : Nat)
    (h : matchCore cs = some (o, r, n)) :
    o ≠ "" ∧ r ≠ "" ∧ (∀ c ∈ o.toList, c ≠ '/') ∧ ∀ c ∈ r.toList, c ≠ '/' := by
  unfold matchCore at h
  cases h1 : splitSlash cs with
  | none => simp [h1] at h
  | some p =>
    obtain ⟨owner, r1⟩ := p
    simp only [h1] at h
    cases h2 : splitSlash r1 with
    | none => simp [h2] at h
    | some q =>
      obtain ⟨repo, r2⟩ := q
      simp only [h2] at h
      cases h3 : dropLit litPull r2 with
      | none => simp [h3] at h
      | some r3 =>
        simp only [h3] at h
        cases h4 : takeDigits r3 with
        | none => simp [h4] at h
        | some m =>
          simp only [h4, Option.some.injEq, Prod.mk.injEq] at h
          obtain ⟨ho, hr, -⟩ := h
          obtain ⟨how1, how2⟩ := splitSlash_props cs owner r1 h1
          obtain ⟨hrp1, hrp2⟩ := splitSlash_props r1 repo r2 h2
          subst ho hr
          refine ⟨?_, ?_, how2, hrp2⟩
          · intro hcon
            exact how1 (congrArg String.toList hcon)
          · intro hcon
            exact hrp1 (congrArg String.toList hcon)

/-- Each of the three URL patterns factors through `matchCore` on a
suffix of its input. -/
theorem matchFirst_factors (cs : List Char) (t : String × String × Nat)
    (h : matchFirst cs = some t) : ∃ cs2, matchCore cs2 = some t := by
  unfold matchFirst at h
  cases g1 : matchPat1 cs with
  | some u =>
    simp only [g1, Option.some.injEq] at h
    subst h
    unfold matchPat1 at g1
    cases d1 : dropLit litGithub cs with
    | none => simp [d1] at g1
    | some r => simp only [d1] at g1; exact ⟨r, g1⟩
  | none =>
    simp only [g1] at h
    cases g2 : matchPat2 cs with
    | some u =>
      simp only [g2, Option.some.injEq] at h
      subst h
      unfold matchPat2 at g2
      cases ds : (match dropLit litHttps cs with
        | some r => some r
        | none => dropLit litHttp cs) with
      | none => simp [ds] at g2
      | some r0 =>
        simp only [ds] at g2
        cases d2 : dropLit litGithub r0 with
        | none => simp [d2] at g2
        | some r => simp only [d2] at g2; exact ⟨r, g2⟩
    | none =>
      simp only [g2] at h
      unfold matchPat3 at h
      cases d3 : dropLit litWww cs with
      | none => simp [d3] at h
      | some r => simp only [d3] at h; exact ⟨r, h⟩

/-- Looking a key up after a `dict` assignment to a different key gives
the same answer as before the assignment. -/
theorem pyLookup_dictSet_ne (entries : List (String × PyVal)) (k k' : String)
    (v : PyVal) (h : k' ≠ k) :
    pyLookup (dictSet entries k v) k' = pyLookup entries k' := by
  induction entries with
  | nil =>
    simp only [dictSet, pyLookup]
    rw [if_neg (fun he : k = k' => h he.symm)]
  | cons hd tl ih =>
    obtain ⟨k0, v0⟩ := hd
    by_cases hk : k0 = k
    · subst hk
      simp only [dictSet, if_pos rfl, pyLookup]
      rw [if_neg (fun he : k0 = k' => h he.symm),
          if_neg (fun he : k0 = k' => h he.symm)]
    · simp only [dictSet, if_neg hk, pyLookup]
      by_cases he : k0 = k'
      · rw [if_pos he, if_pos he]
      · rw [if_neg he, if_neg he, ih]

/-- C1: For the model reply consisting of the JSON object
`{"review":"ok","review_score":90,"errors":[]}` wrapped in Markdown code
fences, the review step strips the fences, parses the JSON, and the
endpoint returns exactly
`{summary:"ok", issues:[], suggestions:[], score:90}`
(whatever the PR number of the request). -/
theorem requestReview_fenced_reply (pr_number : Int) :
    reviewEndpointStep "```json\n\x7b\"review\":\"ok\",\"review_score\":90,\"errors\":[]\x7d\n```" pr_number =
      Except.ok [("summary", PyVal.str "ok"),
                 ("issues", PyVal.arr []),
                 ("suggestions", PyVal.arr []),
                 ("score", PyVal.int 90)] := by
  rfl

/-- C2: whenever the fence-stripped reply is not well-formed JSON, the
review step yields the in-band `"Error: ..."` string, and the endpoint
surfaces it as HTTP 500 with a `"Groq API error:"` detail — an error the
caller can distinguish from any success, never a zero-value review. -/
theorem requestReview_malformed_fails (raw : String) (pr_number : Int)
    (h : jsonLoads (stripFences raw) = none) :
    ∃ d, reviewEndpointStep raw pr_number = Except.error ⟨500, d⟩
      ∧ pyStartsWith d "Groq API error:" = true := by
  refine ⟨"Groq API error: " ++ ("Error: " ++ "invalid JSON reply"), ?_, by decide⟩
  unfold reviewEndpointStep review_pull_request_onReply
  rw [h]
  rfl

/-- Witness for C2 at the spec's example `"not json"`. -/
theorem requestReview_malformed_fails_witness :
    jsonLoads (stripFences "not json") = none
  ∧ ∃ d, reviewEndpointStep "not json" 7 = Except.error ⟨500, d⟩
      ∧ pyStartsWith d "Groq API error:" = true :=
  ⟨rfl, requestReview_malformed_fails "not json" 7 rfl⟩

/-- C10: failure of the review step is signalled in-band as a string
beginning with `"Error:"`, so a model reply that is well-formed JSON — a
JSON-encoded string whose value begins with `"Error:"` — parses
successfully yet is classified as an upstream failure and surfaced as
HTTP 500. -/
theorem inband_error_string_is_500 :
    jsonLoads (stripFences "\"Error: model refused\"") =
      some (PyVal.str "Error: model refused")
  ∧ reviewEndpointStep "\"Error: model refused\"" 3 =
      Except.error ⟨500, "Groq API error: Error: model refused"⟩ :=
  ⟨rfl, rfl⟩

/-- C3 (against the code): for every reply object, the response body the
endpoint builds carries exactly the fields `summary`, `issues`,
`suggestions`, `score` — and no `pr_number`. Line 279 of main.py writes
`pr_number` into the intermediate dictionary, but the reformatting on
lines 282-287 drops it, contradicting the code's own comment
`# Add PR number to the response`. -/
theorem review_response_fields (entries : List (String × PyVal)) (pr_number : Int) :
    ∃ body, handleGroqResult (.obj entries) pr_number = Except.ok body
      ∧ body.map Prod.fst = ["summary", "issues", "suggestions", "score"]
      ∧ pyLookup body "pr_number" = none :=
  ⟨formatResult (dictSet entries "pr_number" (.int pr_number)), rfl, rfl, rfl⟩

/-- C9 (amended): for every well-formed JSON reply object, the endpoint
returns `summary` from `review` (default `"Review completed"`), `issues`
from `errors` (default empty), `suggestions` always empty, and `score`
from `review_score` (default the float 0.0) — the score is passed
through unmodified, not constrained to [0,100]. -/
theorem formatResult_defaults (entries : List (String × PyVal)) (pr_number : Int) :
    handleGroqResult (.obj entries) pr_number =
      Except.ok [("summary", pyGetD entries "review" (.str "Review completed")),
                 ("issues", pyGetD entries "errors" (.arr [])),
                 ("suggestions", .arr []),
                 ("score", pyGetD entries "review_score" (.float 0 0))] := by
  have h1 := pyLookup_dictSet_ne entries "pr_number" "review" (.int pr_number)
    (by decide)
  have h2 := pyLookup_dictSet_ne entries "pr_number" "errors" (.int pr_number)
    (by decide)
  have h3 := pyLookup_dictSet_ne entries "pr_number" "review_score" (.int pr_number)
    (by decide)
  simp only [handleGroqResult, formatResult, pyGetD, h1, h2, h3]

/-- Counterexample to C9 as stated: the reply object
`{"review_score": 150}` produces a successful response whose score is
150, outside the claimed range [0,100] — the code never clamps. -/
theorem review_score_out_of_range :
    handleGroqResult (.obj [("review_score", PyVal.int 150)]) 1 =
      Except.ok [("summary", PyVal.str "Review completed"),
                 ("issues", PyVal.arr []),
                 ("suggestions", PyVal.arr []),
                 ("score", PyVal.int 150)]
  ∧ ¬ ((150 : Int) ≤ 100) :=
  ⟨rfl, by decide⟩

/-- C4: every input whose cleaned form matches one of the three accepted
URL shapes — tried in order, first match wins, each anchored at the start
of the cleaned string — parses to exactly the captured (owner, repo,
number) triple, owner and repo verbatim (case preserved) and the number
read base 10. -/
theorem extract_pr_info_shapes (s o r : String) (n : Nat)
    (h : matchPat1 (cleanUrl s) = some (o, r, n)
       ∨ matchPat1 (cleanUrl s) = none ∧ matchPat2 (cleanUrl s) = some (o, r, n)
       ∨ matchPat1 (cleanUrl s) = none ∧ matchPat2 (cleanUrl s) = none
           ∧ matchPat3 (cleanUrl s) = some (o, r, n)) :
    extract_pr_info s = Except.ok (o, r, n) := by
  unfold extract_pr_info matchFirst
  rcases h with h1 | ⟨h1, h2⟩ | ⟨h1, h2, h3⟩
  · rw [h1]
  · rw [h1, h2]
  · rw [h1, h2, h3]

/-- Witness for C4 at the spec's example URL, which is accepted by the
second shape (`https://...`). -/
theorem extract_pr_info_shapes_witness :
    matchPat1 (cleanUrl "https://github.com/acme/widgets/pull/42") = none
  ∧ matchPat2 (cleanUrl "https://github.com/acme/widgets/pull/42") =
      some ("acme", "widgets", 42)
  ∧ extract_pr_info "https://github.com/acme/widgets/pull/42" =
      Except.ok ("acme", "widgets", 42) :=
  ⟨rfl, rfl,
   extract_pr_info_shapes "https://github.com/acme/widgets/pull/42"
     "acme" "widgets" 42 (Or.inr (Or.inl ⟨rfl, rfl⟩))⟩

/-- C5: resolution of the caller's token — absent or empty tokens fail
unauthenticated (401); a token beginning with the `"session_"` marker is
looked up in the process-wide session map, failing session-not-found
(401) on a miss and yielding the stored upstream access token on a hit;
any other non-empty token is used verbatim as the upstream credential. -/
theorem resolveToken_cases (sessions : List (String × String)) (t : String) :
    resolveToken sessions none = .unauthenticated
  ∧ resolveToken sessions (some "") = .unauthenticated
  ∧ (pyStartsWith t "session_" = true →
      resolveToken sessions (some t) =
        match sessions.lookup t with
        | some a => .token a
        | none => .sessionNotFound)
  ∧ (t ≠ "" → pyStartsWith t "session_" = false →
      resolveToken sessions (some t) = .token t) := by
  refine ⟨rfl, rfl, ?_, ?_⟩
  · intro hs
    have ht : ¬ t = "" := by
      intro he
      subst he
      exact absurd hs (by decide)
    simp only [resolveToken, if_neg ht, if_pos hs]
  · intro h1 h2
    simp [resolveToken, h1, h2]

/-- Witness for C5: a stored session resolves to its access token, an
unknown session handle fails, and a raw token passes through. -/
theorem resolveToken_cases_witness :
    resolveToken [("session_42", "gho_stored")] (some "session_42") =
      .token "gho_stored"
  ∧ resolveToken [] (some "session_42") = .sessionNotFound
  ∧ resolveToken [] (some "ghp_direct") = .token "ghp_direct" :=
  ⟨(resolveToken_cases [("session_42", "gho_stored")] "session_42").2.2.1 (by decide),
   (resolveToken_cases [] "session_42").2.2.1 (by decide),
   (resolveToken_cases [] "ghp_direct").2.2.2 (by decide) (by decide)⟩

/-- Counterexample to C6 as stated: at the spec's own example input
`"not a url"` the error surfaced to the caller of `POST /api/review-pr`
is the fixed detail `"Invalid GitHub PR URL"` (main.py, line 221), which
does not contain the input string. -/
theorem invalid_url_detail_lacks_input :
    endpointParse "not a url" = Except.error ⟨400, "Invalid GitHub PR URL"⟩
  ∧ strContainsSub "Invalid GitHub PR URL" "not a url" = false :=
  ⟨rfl, rfl⟩

/-- C6 (amended): `extract_pr_info`'s own error message does end with the
original, untrimmed input (the f-string of main.py, line 89), but the
review endpoint catches that exception and surfaces the generic
`"Invalid GitHub PR URL"` detail instead, discarding the input. -/
theorem extract_pr_info_error_has_input (s msg : String)
    (h : extract_pr_info s = Except.error msg) :
    (∃ p, msg = p ++ s)
  ∧ endpointParse s = Except.error ⟨400, "Invalid GitHub PR URL"⟩ := by
  unfold extract_pr_info at h
  cases hm : matchFirst (cleanUrl s) with
  | some t => simp [hm] at h
  | none =>
    simp only [hm, Except.error.injEq] at h
    constructor
    · exact ⟨"Invalid GitHub PR URL. Expected format: https://github.com/owner/repo/pull/123. Got: ", h.symm⟩
    · simp [endpointParse, extract_pr_info, hm]

/-- Witness for C6 (amended) at `"not a url"`. -/
theorem extract_pr_info_error_has_input_witness :
    (∃ p, ("Invalid GitHub PR URL. Expected format: https://github.com/owner/repo/pull/123. Got: not a url" : String) =
        p ++ "not a url")
  ∧ endpointParse "not a url" = Except.error ⟨400, "Invalid GitHub PR URL"⟩ :=
  extract_pr_info_error_has_input "not a url" _ rfl

/-- Counterexample to C7 as stated: the parser accepts a PR number of 0
(`\d+` matches `"0"`), so the invariant `number > 0` does not hold for
every accepted input. -/
theorem extract_pr_info_accepts_pull_zero :
    extract_pr_info "github.com/a/b/pull/0" = Except.ok ("a", "b", 0)
  ∧ ¬ ((0 : Nat) > 0) :=
  ⟨rfl, by decide⟩

/-- C7 (amended): every accepted input yields owner and repo that are
non-empty segments containing no slash; the number is a base-10 natural
that may be 0. -/
theorem extract_pr_info_segments (s o r : String) (n : Nat)
    (h : extract_pr_info s = Except.ok (o, r, n)) :
    o ≠ "" ∧ r ≠ "" ∧ (∀ c ∈ o.toList, c ≠ '/') ∧ ∀ c ∈ r.toList, c ≠ '/' := by
  unfold extract_pr_info at h
  cases hm : matchFirst (cleanUrl s) with
  | none => simp [hm] at h
  | some t =>
    simp only [hm, Except.ok.injEq] at h
    subst h
    obtain ⟨cs2, hc⟩ := matchFirst_factors (cleanUrl s) (o, r, n) hm
    exact matchCore_props cs2 o r n hc

/-- Witness for C7 (amended) at a concrete accepted URL. -/
theorem extract_pr_info_segments_witness :
    extract_pr_info "github.com/acme/widgets/pull/42" = Except.ok ("acme", "widgets", 42)
  ∧ ("acme" : String) ≠ "" ∧ ("widgets" : String) ≠ ""
  ∧ (∀ c ∈ ("acme" : String).toList, c ≠ '/')
  ∧ ∀ c ∈ ("widgets" : String).toList, c ≠ '/' :=
  ⟨rfl, extract_pr_info_segments "github.com/acme/widgets/pull/42" "acme" "widgets" 42 rfl⟩

/-- Counterexample to C8 as stated: `lstrip('@')` removes EVERY leading
`'@'`, not exactly one — `"@@github.com/..."` is accepted by the code,
while the one-`'@'` cleaning rule the claim describes would reject it. -/
theorem lstrip_strips_all_at_signs :
    extract_pr_info "@@github.com/acme/widgets/pull/7" = Except.ok ("acme", "widgets", 7)
  ∧ extract_pr_info_oneAt "@@github.com/acme/widgets/pull/7" =
      Except.error "Invalid GitHub PR URL. Expected format: https://github.com/owner/repo/pull/123. Got: @@github.com/acme/widgets/pull/7" :=
  ⟨rfl, rfl⟩

/-- C8 (amended): cleaning trims surrounding whitespace and strips ALL
leading `'@'` characters; in particular the spec's example with one
leading `'@'` succeeds identically to the bare URL, and so does any
longer run of `'@'`s. -/
theorem at_sign_stripping :
    extract_pr_info "@github.com/acme/widgets/pull/7" = Except.ok ("acme", "widgets", 7)
  ∧ extract_pr_info "github.com/acme/widgets/pull/7" = Except.ok ("acme", "widgets", 7)
  ∧ extract_pr_info "@@@github.com/acme/widgets/pull/7" = Except.ok ("acme", "widgets", 7)
  ∧ cleanUrl "@github.com/acme/widgets/pull/7" = cleanUrl "github.com/acme/widgets/pull/7" :=
  ⟨rfl, rfl, rfl, rfl⟩
